import Mathlib

/-!
Verification of the dashboard view-controller (src/static/js/dashboard.js).

The file is a shallow embedding of the script `initDashboard`:
numbers are modelled as rationals (all the arithmetic the script does on
the values the claims exercise is exact), JavaScript values that can be
missing or non-numeric are modelled by the inductive `JSVal` (with an
explicit NaN constructor), fetch responses are explicit data, and the two
asynchronous flows are modelled by pure functions from the data a run
receives (frame times, fetch results) to the writes the run performs.
The host platform services the script calls into (`toLocaleString`
number rendering in the default en-US locale, `Number` coercion of
decimal strings, `Date#toLocaleString`) are modelled alongside; the
date formatter is an environment parameter since no claim constrains it.
-/

namespace Dashboard

/-! ### Decimal rendering (model of `Number#toLocaleString`, en-US defaults) -/

/-- the ten decimal digit characters. -/
def digitChars : List Char := ['0', '1', '2', '3', '4', '5', '6', '7', '8', '9']

/-- character for the decimal digit `n % 10`. -/
def digitChar (n : ℕ) : Char := digitChars.getD (n % 10) '0'

/-- decimal digits of `n`, least significant first; `fuel` bounds recursion. -/
def natDigitsAux : ℕ → ℕ → List Char
  | 0, _ => []
  | _ + 1, 0 => []
  | fuel + 1, n + 1 => digitChar ((n + 1) % 10) :: natDigitsAux fuel ((n + 1) / 10)

/-- decimal digits of `n`, least significant first, `0` rendered as `"0"`. -/
def natDigitsLSD (n : ℕ) : List Char := if n = 0 then ['0'] else natDigitsAux n n

/-- insert a grouping comma after every third digit (input and output are
least-significant-first); `k` counts digits already taken in the current group. -/
def group3Aux : ℕ → List Char → List Char
  | _, [] => []
  | k, c :: rest =>
    if k % 3 = 2 && !rest.isEmpty then c :: ',' :: group3Aux 0 rest
    else c :: group3Aux (k + 1) rest

/-- characters of `n` in decimal with en-US thousands grouping. -/
def groupedNatChars (n : ℕ) : List Char := (group3Aux 0 (natDigitsLSD n)).reverse

/-- `n` in decimal with thousands grouping, e.g. `1234 ↦ "1,234"`. -/
def groupedNat (n : ℕ) : String := ⟨groupedNatChars n⟩

/-- characters of an integer with grouping and sign. -/
def groupedIntChars (i : ℤ) : List Char :=
  (if i < 0 then ['-'] else []) ++ groupedNatChars i.natAbs

/-- an integer with grouping and sign, the `toLocaleString()` of an integer. -/
def groupedInt (i : ℤ) : String := ⟨groupedIntChars i⟩

/-- `Math.round`: round half toward positive infinity. -/
def jsRound (q : ℚ) : ℤ := ⌊q + 1/2⌋

/-- round a nonnegative rational half away from zero to a natural number
(the `halfExpand` rounding `Intl.NumberFormat` applies to a magnitude). -/
def halfUpNat (q : ℚ) : ℕ := (⌊q + 1/2⌋).toNat

/-- characters of `toLocaleString(undefined, \x7b minimumFractionDigits: 2,
maximumFractionDigits: 2 \x7d)`: sign, grouped integer part, a point, and
exactly two fraction digits. -/
def moneyChars (q : ℚ) : List Char :=
  let scaled := halfUpNat (|q| * 100)
  (if q < 0 then ['-'] else []) ++ groupedNatChars (scaled / 100)
    ++ '.' :: [digitChar (scaled % 100 / 10), digitChar (scaled % 100)]

/-- string form of `moneyChars`. -/
def moneyString (q : ℚ) : String := ⟨moneyChars q⟩

/-- characters of `toLocaleString(undefined, \x7b maximumFractionDigits: 1 \x7d)`:
sign, grouped integer part, and one fraction digit only when it is nonzero. -/
def percentChars (q : ℚ) : List Char :=
  let scaled := halfUpNat (|q| * 10)
  (if q < 0 then ['-'] else []) ++ groupedNatChars (scaled / 10)
    ++ (if scaled % 10 = 0 then [] else ['.', digitChar (scaled % 10)])

/-- string form of `percentChars`. -/
def percentString (q : ℚ) : String := ⟨percentChars q⟩

/-! ### JavaScript values, truthiness and numeric coercion -/

/-- a JavaScript value as far as the script distinguishes them; `nan` is the
numeric not-a-number value. -/
inductive JSVal where
  | undefv : JSVal
  | nullv : JSVal
  | bool : Bool → JSVal
  | num : ℚ → JSVal
  | nan : JSVal
  | str : String → JSVal
deriving DecidableEq

/-- JavaScript truthiness. -/
def truthy : JSVal → Bool
  | .undefv => false
  | .nullv => false
  | .bool b => b
  | .num q => q ≠ 0
  | .nan => false
  | .str s => s ≠ ""

/-- value of a decimal digit character. -/
def digitVal (c : Char) : ℕ := c.toNat - '0'.toNat

/-- whether `c` is a decimal digit. -/
def isDigitCh (c : Char) : Bool := '0' ≤ c && c ≤ '9'

/-- natural number denoted by a digit string, most significant first. -/
def digitsToNat (l : List Char) : ℕ := l.foldl (fun acc c => acc * 10 + digitVal c) 0

/-- Modelled from the host platform: `Number(string)` on the decimal literals
the dashboard can meet — optional sign, digits, optional point; blank coerces
to `0`; anything else (such as `"abc"`) is NaN, returned as `none`. -/
def parseNumber (s : String) : Option ℚ :=
  let l := (s.data.dropWhile (· == ' ')).reverse.dropWhile (· == ' ') |>.reverse
  if l.isEmpty then some 0 else
    let (neg, l1) := match l with
      | '-' :: r => (true, r)
      | '+' :: r => (false, r)
      | _ => (false, l)
    let ip := l1.takeWhile (fun c => c != '.')
    let rest := l1.dropWhile (fun c => c != '.')
    let mk : ℚ → Option ℚ := fun v => some (if neg then -v else v)
    match rest with
    | [] => if !ip.isEmpty && ip.all isDigitCh then mk (digitsToNat ip) else none
    | _ :: fp =>
      if (ip.all isDigitCh && fp.all isDigitCh) && !(ip.isEmpty && fp.isEmpty) then
        mk (digitsToNat ip + (digitsToNat fp : ℚ) / (10 : ℚ) ^ fp.length)
      else none

/-- JavaScript `Number(v)`; `none` is NaN. -/
def toNumber : JSVal → Option ℚ
  | .undefv => none
  | .nullv => some 0
  | .bool b => some (if b then 1 else 0)
  | .num q => some q
  | .nan => none
  | .str s => parseNumber s

/-- the script's coercion idiom `Number(value || 0)`: a falsy value falls back
to `0` before conversion, so `undefined`, `null`, `""`, `false`, `0` and NaN
all coerce to `0`, while a truthy value goes through `Number` and may be NaN. -/
def coerceNum (v : JSVal) : Option ℚ :=
  toNumber (if truthy v then v else .num 0)

/-! ### formatValue (dashboard.js lines 6-11) -/

/-- the branch of `formatValue` after the coercion `n = Number(value || 0)`:
`money` renders with two fixed fraction digits, `percent` with at most one
fraction digit, and anything else as `Math.round(n).toLocaleString()`. -/
def formatValueQ (n : ℚ) (format : String) : String :=
  if format = "money" then moneyString n
  else if format = "percent" then percentString n
  else groupedInt (jsRound n)

/-- `formatValue(value, format)`: coerce with `Number(value || 0)` and render;
when the coercion is NaN every branch renders `"NaN"`. -/
def formatValue (value : JSVal) (format : String) : String :=
  match coerceNum value with
  | none => "NaN"
  | some n => formatValueQ n format

/-- count of fraction digits a rendered string displays: the characters after
the last decimal point, zero when there is no point. -/
def fracDigits (s : String) : ℕ :=
  if '.' ∈ s.data then (s.data.reverse.takeWhile (fun c => c != '.')).length else 0

/-! ### countUp (dashboard.js lines 12-30) -/

/-- `easeOutCubic(t) = 1 - (1 - t)^3` (line 5). -/
def easeOutCubic (t : ℚ) : ℚ := 1 - (1 - t) ^ 3

/-- the option read `opts?.format || 'int'` (line 13): absent or falsy
(empty) format falls back to `"int"`. -/
def countUpFormat : Option String → String
  | some s => if s = "" then "int" else s
  | none => "int"

/-- the option read `opts?.duration || 750` (line 14): absent or falsy
(zero) duration falls back to `750`. -/
def countUpDuration : Option ℚ → ℚ
  | some d => if d = 0 then 750 else d
  | none => 750

/-- elapsed fraction computed by `tick` (line 23):
`t = Math.min((now - start) / duration, 1)`. -/
def tickT (start duration now : ℚ) : ℚ := min ((now - start) / duration) 1

/-- interpolated value of `tick` (line 25): `current = from + (to - from) * eased`
with `from = 0`. -/
def tickCurrent (toVal eased : ℚ) : ℚ := 0 + (toVal - 0) * eased

/-- whether `tick` reschedules itself (line 27): exactly when `t < 1`. -/
def tickReschedules (t : ℚ) : Bool := t < 1

/-- the writes the `tick` loop performs given the frame times the platform
delivers, in order: each frame writes the formatted interpolated value and the
loop continues to the next frame only while `t < 1`.  a target of `none` is the NaN
target, which interpolates to NaN. -/
def runFrames (start duration : ℚ) (toVal : Option ℚ) (fmt : String) :
    List ℚ → List String
  | [] => []
  | now :: rest =>
    let t := tickT start duration now
    let current : JSVal := match toVal with
      | none => .nan
      | some q => .num (tickCurrent q (easeOutCubic t))
    let w := formatValue current fmt
    if tickReschedules t then w :: runFrames start duration toVal fmt rest else [w]

/-- `countUp(el, endValue, opts)` as the list of texts written to the element,
in order.  Under reduced motion the final formatted value is written at once
and no frame callback is scheduled (the write list ignores the frame times);
otherwise the target is coerced by `Number(endValue || 0)` and the `tick`
loop runs over the delivered frame times. -/
def countUpWrites (prefersReduced : Bool) (endValue : JSVal)
    (format : Option String) (duration : Option ℚ) (start : ℚ)
    (frames : List ℚ) : List String :=
  let fmt := countUpFormat format
  let dur := countUpDuration duration
  if prefersReduced then [formatValue endValue fmt]
  else runFrames start dur (coerceNum endValue) fmt frames

/-! ### applyMetrics (dashboard.js lines 31-41) -/

/-- a KPI element: its `data-key` attribute and its optional `data-format`
attribute (`getAttribute` yields null when absent). -/
structure KpiEl where
  dataKey : String
  dataFormat : Option String
deriving DecidableEq

/-- the value `counts[key] ?? 0` (line 36). -/
def countsLookup (counts : List (String × ℚ)) (key : String) : ℚ :=
  (counts.lookup key).getD 0

/-- `applyMetrics(counts)`: when `counts` is falsy nothing happens; otherwise
every KPI element gets a `countUp` toward `counts[key] ?? 0` with its declared
format and a 750 ms duration.  Each element comes paired with its animation
start time and the frame times the platform delivers to its `tick` loop; the
result lists, per element in document order, the texts written to it. -/
def applyMetrics (prefersReduced : Bool) (counts : Option (List (String × ℚ)))
    (els : List (KpiEl × ℚ × List ℚ)) : List (List String) :=
  match counts with
  | none => []
  | some cs =>
    els.map fun e =>
      countUpWrites prefersReduced (.num (countsLookup cs e.1.dataKey))
        e.1.dataFormat (some 750) e.2.1 e.2.2

/-! ### fetchMetricsOnce response handling (dashboard.js lines 45-48) -/

/-- parsed body of a `/dashboard/metrics` response: the `ok` flag, the
`counts` mapping when present and non-null, and the optional `error` text. -/
structure MetricsBody where
  ok : Bool
  counts : Option (List (String × ℚ))
  error : Option String
deriving DecidableEq

/-- JavaScript `x || d` on an optional string: the fallback is taken when the
field is absent or empty (falsy). -/
def strOrDefault (o : Option String) (d : String) : String :=
  match o with
  | some s => if s = "" then d else s
  | none => d

/-- lines 46-48 of `fetchMetricsOnce`: resolve with `data.counts` when the
HTTP status is a success, `data.ok` is truthy and `data.counts` is present;
otherwise throw `new Error(data?.error || 'Failed to fetch metrics.')`. -/
def fetchMetricsOutcome (httpOk : Bool) (body : MetricsBody) :
    Except String (List (String × ℚ)) :=
  match httpOk, body.ok, body.counts with
  | true, true, some cs => .ok cs
  | _, _, _ => .error (strOrDefault body.error "Failed to fetch metrics.")

/-! ### metrics request lifecycle (dashboard.js lines 3, 42-49)

The cancellation behaviour is modelled as a small event system.  A `call`
event is an invocation of `fetchMetricsOnce`: it aborts the controller held
in `metricsAbort` (when one exists), installs a fresh controller and sends
the request with `cache: 'no-store'`.  A `deliver` event is the completion
of one request's fetch-parse-resolve sequence: if the request was aborted
beforehand its promise chain rejects (the top-level catch swallows it) and
nothing reaches the DOM; otherwise a successful result is applied via
`applyMetrics`. -/

/-- observable actions of the metrics machinery: aborting a request,
sending a request (with its `no-store` cache flag), and applying a
request's result to the DOM. -/
inductive MAction where
  | abort : ℕ → MAction
  | send : ℕ → Bool → MAction
  | applyDom : ℕ → MAction
deriving DecidableEq

/-- lifecycle events: a call of `fetchMetricsOnce`, or the delivery of the
response of request `id` (with whether the response is well-formed). -/
inductive MEvent where
  | call : MEvent
  | deliver : ℕ → Bool → MEvent
deriving DecidableEq

/-- state of the metrics machinery: the request whose controller
`metricsAbort` currently holds, the next fresh request id, and which
requests have been sent, aborted and delivered. -/
structure MState where
  current : Option ℕ
  nextId : ℕ
  sent : List ℕ
  aborted : List ℕ
  delivered : List ℕ
deriving DecidableEq

/-- the initial state: `metricsAbort = null`, nothing sent. -/
def initM : MState :=
  { current := none, nextId := 0, sent := [], aborted := [], delivered := [] }

/-- one lifecycle step, returning the new state and the actions performed.
A `call` aborts the previous controller first and only then sends the new
request with caching disabled; a `deliver` of an aborted request performs no
DOM application. -/
def stepM : MState → MEvent → MState × List MAction
  | s, .call =>
    ({ current := some s.nextId
       nextId := s.nextId + 1
       sent := s.sent ++ [s.nextId]
       aborted := match s.current with
         | some t => s.aborted ++ [t]
         | none => s.aborted
       delivered := s.delivered },
     (match s.current with
       | some t => [MAction.abort t]
       | none => []) ++ [MAction.send s.nextId true])
  | s, .deliver id ok =>
    if id ∈ s.sent ∧ id ∉ s.delivered then
      let s1 := { s with delivered := s.delivered ++ [id] }
      if id ∈ s.aborted then (s1, [])
      else if ok then (s1, [MAction.applyDom id]) else (s1, [])
    else (s, [])

/-- run a list of lifecycle events, accumulating the action log. -/
def runM : MState → List MEvent → MState × List MAction
  | s, [] => (s, [])
  | s, e :: rest =>
    let p := stepM s e
    let r := runM p.1 rest
    (r.1, p.2 ++ r.2)

/-! ### loadDetails (dashboard.js lines 51-116) -/

/-- one record of `recent_activities`. -/
structure Activity where
  icon : String
  color : String
  text : String
  time : String
deriving DecidableEq

/-- parsed body of a `/home/details` response.  The `error` field is the one
read on the non-success path; `recent_activities` is `none` when the field is
absent (or null). -/
structure DetailsData where
  total_debt : ℚ
  total_paid : ℚ
  months : List String
  order_counts : List ℚ
  top_clients_names : List String
  top_clients_orders : List ℚ
  recent_activities : Option (List Activity)
  error : Option String
deriving DecidableEq

/-- the host-platform services the details flow delegates to; the claims
constrain none of them, so they are kept abstract as an environment.
`localeDateTime` is `new Date(t).toLocaleString()`. -/
structure Env where
  localeDateTime : String → String

/-- outcome of `fetch('/home/details')` as the script can observe it: a
network-level rejection, or a response with an HTTP-success flag and a JSON
parse result for its body. -/
inductive DetailsFetch where
  | netError : String → DetailsFetch
  | resp : Bool → Except String DetailsData → DetailsFetch

/-- lines 63-65: `percentage = total_debt > 0 ?
Math.round((total_paid / total_debt) * 100) : 0`. -/
def detailsPercentage (total_debt total_paid : ℚ) : ℤ :=
  if total_debt > 0 then jsRound (total_paid / total_debt * 100) else 0

/-- decimal expansion of the fractional part `r` (with `0 ≤ r < 1`), at most
`fuel` digits; models how a template literal prints a number's fraction. -/
def fracExpansion : ℚ → ℕ → List Char
  | _, 0 => []
  | r, fuel + 1 =>
    if r = 0 then [] else
      digitChar (⌊r * 10⌋).toNat :: fracExpansion (r * 10 - ⌊r * 10⌋) fuel

/-- decimal form of `n` without grouping. -/
def natPlain (n : ℕ) : String := ⟨(natDigitsLSD n).reverse⟩

/-- Modelled from the host platform: the string a template literal
interpolation `${q}` produces for a number (no grouping, plain decimal). -/
def jsNumToString (q : ℚ) : String :=
  (if q < 0 then "-" else "") ++ natPlain (⌊|q|⌋).toNat ++
    (let f := fracExpansion (|q| - ⌊|q|⌋) 20
     if f.isEmpty then "" else "." ++ (⟨f⟩ : String))

/-- the chart-section markup of lines 67-83 (decorative glyphs elided,
whitespace collapsed): three chart cards and the collection summary that
interpolates `total_debt` and `total_paid`. -/
def chartSectionHTML (data : DetailsData) : String :=
  "<div class=\"chart-card mb-4\"><h6 class=\"text-center\">Monthly Orders Overview</h6><div class=\"chart-container\"><canvas id=\"ordersChart\"></canvas></div></div><div class=\"chart-card mb-4\"><h6 class=\"text-center\">Top Clients by Orders</h6><div class=\"chart-container\"><canvas id=\"topClientsChart\"></canvas></div></div><div class=\"chart-card mb-4 text-center\"><h6 class=\"mb-3\">Collection Rate</h6><div class=\"chart-container d-flex justify-content-center\"><canvas id=\"debtChart\" style=\"max-width: 250px;\"></canvas></div><p class=\"mt-3\">Out of GHS "
    ++ jsNumToString data.total_debt ++ ", you have collected GHS "
    ++ jsNumToString data.total_paid ++ "</p></div>"

/-- the activity-card shell of lines 88-93. -/
def activityCardHTML : String :=
  "<div class=\"chart-card shadow-sm rounded p-3\"><h6 class=\"mb-3 fw-bold\">Recent Activities</h6><ul class=\"list-group list-group-flush\" id=\"activityList\"></ul></div>"

/-- the placeholder of line 108. -/
def noActivitiesHTML : String :=
  "<p class=\"text-muted text-center\">No recent activities</p>"

/-- the inner markup of one activity list item (lines 98-104): icon and text
both carry the activity's color class, and the timestamp is rendered by the
platform's locale date formatter. -/
def renderActivityItem (env : Env) (act : Activity) : String :=
  "<div class=\"d-flex align-items-start\"><span class=\"fs-5 me-2 "
    ++ act.color ++ "\">" ++ act.icon ++ "</span><div><div class=\"fw-medium "
    ++ act.color ++ "\">" ++ act.text
    ++ "</div></div></div><small class=\"text-muted ms-auto mt-1\">"
    ++ env.localeDateTime act.time ++ "</small>"

/-- everything one run of `loadDetails` does to its surroundings: the markup
written to the two regions, the list items appended to the activity list, the
`renderCharts` invocations scheduled, and the console error log. -/
structure DashOutcome where
  chartHTML : String
  activityHTML : String
  activityItems : List String
  renderCalls : List (DetailsData × ℤ)
  logs : List String
deriving DecidableEq

/-- the catch handler of lines 111-115: log the error and replace both
regions with messages built from the error's text; nothing is rendered. -/
def errOutcome (msg : String) : DashOutcome :=
  { chartHTML := "<p class=\"text-danger\">Chart load failed: " ++ msg ++ "</p>"
    activityHTML := "<p class=\"text-danger\">Activity load failed: " ++ msg ++ "</p>"
    activityItems := []
    renderCalls := []
    logs := ["Dashboard Error: " ++ msg] }

/-- `loadDetails()` (lines 51-116).  A non-success response has its body
parsed with the failure swallowed (`.catch(() => (\x7b\x7d))`) and throws
`errData?.error || 'Failed to fetch dashboard data.'`; a success response
whose body fails to parse rejects with the parse error; any error reaches the
catch handler.  On success the percentage is computed, the chart section is
rebuilt, one `renderCharts(data, percentage)` call is scheduled, and the
activity region shows one item per record in order, or the placeholder when
`recent_activities` is absent or empty. -/
def loadDetails (env : Env) (f : DetailsFetch) : DashOutcome :=
  match f with
  | .netError msg => errOutcome msg
  | .resp httpOk js =>
    if httpOk then
      match js with
      | .error e => errOutcome e
      | .ok data =>
        let percentage := detailsPercentage data.total_debt data.total_paid
        let act : String × List String := match data.recent_activities with
          | some acts =>
            if acts.length > 0 then (activityCardHTML, acts.map (renderActivityItem env))
            else (noActivitiesHTML, [])
          | none => (noActivitiesHTML, [])
        { chartHTML := chartSectionHTML data
          activityHTML := act.1
          activityItems := act.2
          renderCalls := [(data, percentage)]
          logs := [] }
    else
      errOutcome (strOrDefault
        (match js with | .ok d => d.error | .error _ => none)
        "Failed to fetch dashboard data.")

/-! ## Helper lemmas -/

theorem digitChar_ne_dot (n : ℕ) : digitChar n ≠ '.' := by
  unfold digitChar
  have h : n % 10 < 10 := Nat.mod_lt _ (by norm_num)
  set m := n % 10 with hm
  interval_cases m <;> decide

theorem natDigitsAux_ne_dot : ∀ fuel n, ∀ c ∈ natDigitsAux fuel n, c ≠ '.' := by
  intro fuel
  induction fuel with
  | zero => intro n c hc; simp [natDigitsAux] at hc
  | succ fuel ih =>
    intro n c hc
    cases n with
    | zero => simp [natDigitsAux] at hc
    | succ m =>
      simp only [natDigitsAux, List.mem_cons] at hc
      rcases hc with h | h
      · exact h ▸ digitChar_ne_dot _
      · exact ih _ c h

theorem natDigitsLSD_ne_dot (n : ℕ) : ∀ c ∈ natDigitsLSD n, c ≠ '.' := by
  intro c hc
  unfold natDigitsLSD at hc
  by_cases h : n = 0
  · simp [h] at hc; simp [hc]
  · simp only [if_neg h] at hc
    exact natDigitsAux_ne_dot n n c hc

theorem group3Aux_ne_dot : ∀ l k, (∀ c ∈ l, c ≠ '.') → ∀ c ∈ group3Aux k l, c ≠ '.' := by
  intro l
  induction l with
  | nil => intro k _ c hc; simp [group3Aux] at hc
  | cons x rest ih =>
    intro k hl c hc
    simp only [group3Aux] at hc
    by_cases hb : (k % 3 = 2 && !rest.isEmpty) = true
    · rw [if_pos hb] at hc
      simp only [List.mem_cons] at hc
      rcases hc with h | h | h
      · exact h ▸ hl x (by simp)
      · simp [h]
      · exact ih 0 (fun c hc => hl c (by simp [hc])) c h
    · rw [if_neg hb] at hc
      simp only [List.mem_cons] at hc
      rcases hc with h | h
      · exact h ▸ hl x (by simp)
      · exact ih (k + 1) (fun c hc => hl c (by simp [hc])) c h

theorem groupedNatChars_ne_dot (n : ℕ) : ∀ c ∈ groupedNatChars n, c ≠ '.' := by
  intro c hc
  unfold groupedNatChars at hc
  rw [List.mem_reverse] at hc
  exact group3Aux_ne_dot _ 0 (natDigitsLSD_ne_dot n) c hc

theorem groupedIntChars_ne_dot (i : ℤ) : ∀ c ∈ groupedIntChars i, c ≠ '.' := by
  intro c hc
  unfold groupedIntChars at hc
  rw [List.mem_append] at hc
  rcases hc with h | h
  · by_cases hi : i < 0
    · rw [if_pos hi] at h; simp at h; simp [h]
    · rw [if_neg hi] at h; simp at h
  · exact groupedNatChars_ne_dot _ c h

theorem fracDigits_of_no_dot (l : List Char) (h : ∀ c ∈ l, c ≠ '.') :
    fracDigits ⟨l⟩ = 0 := by
  unfold fracDigits
  rw [if_neg]
  intro hmem
  exact h '.' hmem rfl

theorem fracDigits_dot_two (a : List Char) (d1 d2 : Char)
    (h1 : d1 ≠ '.') (h2 : d2 ≠ '.') :
    fracDigits ⟨a ++ '.' :: [d1, d2]⟩ = 2 := by
  unfold fracDigits
  rw [if_pos (by simp)]
  rw [List.reverse_append]
  simp only [List.reverse_cons, List.reverse_nil, List.nil_append, List.cons_append,
    List.append_assoc]
  rw [List.takeWhile_cons_of_pos (by simpa using h2),
    List.takeWhile_cons_of_pos (by simpa using h1),
    List.takeWhile_cons_of_neg (by simp)]
  rfl

theorem fracDigits_dot_one (a : List Char) (d1 : Char)
    (h1 : d1 ≠ '.') :
    fracDigits ⟨a ++ '.' :: [d1]⟩ = 1 := by
  unfold fracDigits
  rw [if_pos (by simp)]
  rw [List.reverse_append]
  simp only [List.reverse_cons, List.reverse_nil, List.nil_append, List.cons_append,
    List.append_assoc]
  rw [List.takeWhile_cons_of_pos (by simpa using h1),
    List.takeWhile_cons_of_neg (by simp)]
  rfl

theorem moneyChars_shape (q : ℚ) :
    moneyChars q = ((if q < 0 then ['-'] else []) ++
      groupedNatChars (halfUpNat (|q| * 100) / 100)) ++
      '.' :: [digitChar (halfUpNat (|q| * 100) % 100 / 10),
              digitChar (halfUpNat (|q| * 100) % 100)] := by
  unfold moneyChars
  simp [List.append_assoc]

theorem sign_grouped_ne_dot (b : Bool) (n : ℕ) :
    ∀ c ∈ (if b then ['-'] else ([] : List Char)) ++ groupedNatChars n, c ≠ '.' := by
  intro c hc
  rw [List.mem_append] at hc
  rcases hc with h | h
  · cases b <;> simp at h; simp [h]
  · exact groupedNatChars_ne_dot _ c h

theorem fracDigits_money (q : ℚ) : fracDigits (moneyString q) = 2 := by
  unfold moneyString
  rw [moneyChars_shape]
  exact fracDigits_dot_two _ _ _ (digitChar_ne_dot _) (digitChar_ne_dot _)

theorem fracDigits_percent (q : ℚ) : fracDigits (percentString q) ≤ 1 := by
  simp only [percentString, percentChars]
  by_cases h : halfUpNat (|q| * 10) % 10 = 0
  · rw [if_pos h]
    have : fracDigits ⟨(if q < 0 then ['-'] else []) ++
        groupedNatChars (halfUpNat (|q| * 10) / 10) ++ []⟩ = 0 := by
      apply fracDigits_of_no_dot
      intro c hc
      rw [List.append_nil, List.mem_append] at hc
      rcases hc with h | h
      · by_cases hq : q < 0
        · rw [if_pos hq] at h; simp at h; simp [h]
        · rw [if_neg hq] at h; simp at h
      · exact groupedNatChars_ne_dot _ c h
    exact le_trans (le_of_eq this) (by norm_num)
  · rw [if_neg h]
    have : fracDigits ⟨((if q < 0 then ['-'] else []) ++
        groupedNatChars (halfUpNat (|q| * 10) / 10)) ++
        '.' :: [digitChar (halfUpNat (|q| * 10) % 10)]⟩ = 1 := by
      exact fracDigits_dot_one _ _ (digitChar_ne_dot _)
    exact le_of_eq this

/-! ## Claim C6 -/

/-- C6: formatValue renders its numeric input with exactly 2 fraction digits
for format money, at most 1 fraction digit for format percent, and rounded to
the nearest integer with no fraction digits for any other format; in
particular money-formatting 1234.5 yields "1,234.50" and integer-formatting
1234.5 yields "1,235". -/
theorem C6_format_fraction_digits :
    (∀ q : ℚ, fracDigits (formatValueQ q "money") = 2) ∧
    (∀ q : ℚ, fracDigits (formatValueQ q "percent") ≤ 1) ∧
    (∀ (q : ℚ) (fmt : String), fmt ≠ "money" → fmt ≠ "percent" →
      formatValueQ q fmt = groupedInt (jsRound q) ∧
      fracDigits (formatValueQ q fmt) = 0) ∧
    (∀ (q : ℚ) (fmt : String), formatValue (.num q) fmt = formatValueQ q fmt) ∧
    formatValueQ 1234.5 "money" = "1,234.50" ∧
    formatValueQ 1234.5 "int" = "1,235" := by
  refine ⟨?_, ?_, ?_, ?_, ?_, ?_⟩
  · intro q
    have h : formatValueQ q "money" = moneyString q := by simp [formatValueQ]
    rw [h]; exact fracDigits_money q
  · intro q
    have h : formatValueQ q "percent" = percentString q := by simp [formatValueQ]
    rw [h]; exact fracDigits_percent q
  · intro q fmt h1 h2
    have h : formatValueQ q fmt = groupedInt (jsRound q) := by
      simp [formatValueQ, h1, h2]
    refine ⟨h, ?_⟩
    rw [h]
    unfold groupedInt
    exact fracDigits_of_no_dot _ (groupedIntChars_ne_dot _)
  · intro q fmt
    have hc : coerceNum (.num q) = some q := by
      unfold coerceNum truthy
      by_cases h : q = 0
      · subst h; simp [toNumber]
      · simp [h, toNumber]
    simp [formatValue, hc]
  · have h : halfUpNat (|(1234.5 : ℚ)| * 100) = 123450 := by
      rw [show |(1234.5 : ℚ)| = 1234.5 from abs_of_nonneg (by norm_num)]
      norm_num [halfUpNat, Int.floor_eq_iff]
      decide
    have hneg : ¬ ((1234.5 : ℚ) < 0) := by norm_num
    have hm : formatValueQ (1234.5 : ℚ) "money" = moneyString 1234.5 := by
      simp [formatValueQ]
    rw [hm]
    simp only [moneyString, moneyChars, h, if_neg hneg]
    decide
  · have h : jsRound (1234.5 : ℚ) = 1235 := by norm_num [jsRound, Int.floor_eq_iff]
    have hi : formatValueQ (1234.5 : ℚ) "int" = groupedInt (jsRound 1234.5) := by
      simp [formatValueQ]
    rw [hi, h]
    decide

/-- witness for C6: the default branch at a concrete format and value. -/
theorem C6_format_fraction_digits_witness :
    ("int" : String) ≠ "money" ∧ ("int" : String) ≠ "percent" ∧
    formatValueQ 7 "int" = groupedInt (jsRound 7) ∧
    fracDigits (formatValueQ 7 "int") = 0 :=
  ⟨by decide, by decide,
   (C6_format_fraction_digits.2.2.1 7 "int" (by decide) (by decide)).1,
   (C6_format_fraction_digits.2.2.1 7 "int" (by decide) (by decide)).2⟩

/-! ## Claim C7 (corrected) -/

/-- C7 counterexample: `"abc"` is a non-numeric input, yet `Number("abc" || 0)`
is NaN (`none`), not `0`, and `formatValue` then renders `"NaN"`; the claimed
universal zero-fallback fails on truthy non-numeric strings. -/
theorem C7_counterexample :
    coerceNum (.str "abc") = none ∧ coerceNum (.str "abc") ≠ some 0 ∧
    formatValue (.str "abc") "int" = "NaN" := by
  refine ⟨by decide, by decide, by decide⟩

/-- C7 amended: the coercion `Number(value || 0)` used by `formatValue` and
for the `countUp` target yields `0` exactly for the falsy inputs — missing
values (`undefined`, `null`), `false`, `0`, NaN and the empty string — while
a truthy non-numeric string coerces to NaN, not `0`.  A numeric input passes
through unchanged, so for numeric and for falsy inputs the animation target
and the displayed number are well-defined numbers. -/
theorem C7_zero_fallback_for_falsy :
    (∀ v : JSVal, truthy v = false → coerceNum v = some 0) ∧
    (∀ q : ℚ, coerceNum (.num q) = some q) ∧
    (∀ v : JSVal, ∀ fmt : String, truthy v = false →
      formatValue v fmt = formatValueQ 0 fmt) := by
  have h0 : ∀ v : JSVal, truthy v = false → coerceNum v = some 0 := by
    intro v hv
    unfold coerceNum
    rw [hv]
    simp [toNumber]
  refine ⟨h0, ?_, ?_⟩
  · intro q
    unfold coerceNum truthy
    by_cases h : q = 0
    · subst h; simp [toNumber]
    · simp [h, toNumber]
  · intro v fmt hv
    unfold formatValue
    rw [h0 v hv]

/-- witness for C7 amended: the undefined value coerces to zero and formats
as the zero of the given format. -/
theorem C7_zero_fallback_for_falsy_witness :
    truthy .undefv = false ∧ coerceNum .undefv = some 0 ∧
    formatValue .undefv "int" = formatValueQ 0 "int" :=
  ⟨by decide, C7_zero_fallback_for_falsy.1 .undefv (by decide),
   C7_zero_fallback_for_falsy.2.2 .undefv "int" (by decide)⟩

/-! ## Claim C5 -/

/-- C5: on a successful details fetch the computed percentage is
`Math.round(total_paid / total_debt * 100)` when `total_debt > 0` and `0`
otherwise; `total_debt = 1000, total_paid = 250` give `25`, and
`total_debt = 0` gives `0` for every `total_paid`; `loadDetails` hands
exactly this percentage to the scheduled `renderCharts` call. -/
theorem C5_details_percentage :
    (∀ d p : ℚ, d > 0 → detailsPercentage d p = jsRound (p / d * 100)) ∧
    (∀ d p : ℚ, ¬ d > 0 → detailsPercentage d p = 0) ∧
    detailsPercentage 1000 250 = 25 ∧
    (∀ p : ℚ, detailsPercentage 0 p = 0) ∧
    (∀ (env : Env) (data : DetailsData),
      (loadDetails env (.resp true (.ok data))).renderCalls =
        [(data, detailsPercentage data.total_debt data.total_paid)]) := by
  refine ⟨?_, ?_, ?_, ?_, ?_⟩
  · intro d p h; simp [detailsPercentage, h]
  · intro d p h; simp [detailsPercentage, h]
  · have h : ((250 : ℚ) / 1000 * 100) = 25 := by norm_num
    have hd : ((1000 : ℚ) > 0) := by norm_num
    simp only [detailsPercentage, if_pos hd, h]
    norm_num [jsRound, Int.floor_eq_iff]
  · intro p; simp [detailsPercentage]
  · intro env data
    simp [loadDetails]

/-- witness for C5: the behaviour at the two concrete inputs of the claim. -/
theorem C5_details_percentage_witness :
    ((1000 : ℚ) > 0 ∧ detailsPercentage 1000 250 = jsRound (250 / 1000 * 100)) ∧
    (¬ (0 : ℚ) > 0 ∧ detailsPercentage 0 7 = 0) :=
  ⟨⟨by norm_num, C5_details_percentage.1 1000 250 (by norm_num)⟩,
   ⟨by norm_num, C5_details_percentage.2.1 0 7 (by norm_num)⟩⟩

/-! ## Claim C2 (corrected) -/

/-- C2 counterexample: a response whose payload carries a present but empty
`error` field fails with the default message, not with the payload's `error`
field (the empty string), because `data?.error || ...` treats the empty
string as falsy. -/
theorem C2_counterexample :
    fetchMetricsOutcome false ⟨false, none, some ""⟩ =
      .error "Failed to fetch metrics." ∧
    ("Failed to fetch metrics." : String) ≠ "" := by
  constructor
  · rfl
  · decide

/-- C2 amended: `fetchMetricsOnce` resolves with the counts mapping exactly
when the response has an HTTP-success status, `ok` truthy and a `counts`
field; otherwise it fails with the payload's `error` field when that field is
present and non-empty, else with the default message
"Failed to fetch metrics.". -/
theorem C2_fetchMetrics_outcome :
    (∀ (httpOk : Bool) (body : MetricsBody) (cs : List (String × ℚ)),
      fetchMetricsOutcome httpOk body = .ok cs ↔
        httpOk = true ∧ body.ok = true ∧ body.counts = some cs) ∧
    (∀ (httpOk : Bool) (body : MetricsBody),
      httpOk = false ∨ body.ok = false ∨ body.counts = none →
      fetchMetricsOutcome httpOk body =
        .error (strOrDefault body.error "Failed to fetch metrics.")) ∧
    (∀ s d : String, s ≠ "" → strOrDefault (some s) d = s) ∧
    (∀ d : String, strOrDefault none d = d) ∧
    (∀ d : String, strOrDefault (some "") d = d) := by
  refine ⟨?_, ?_, ?_, ?_, ?_⟩
  · intro httpOk body cs
    rcases body with ⟨ok, counts, err⟩
    cases httpOk <;> cases ok <;> cases counts <;> simp [fetchMetricsOutcome]
  · intro httpOk body h
    rcases body with ⟨ok, counts, err⟩
    cases httpOk <;> cases ok <;> cases counts <;>
      simp_all [fetchMetricsOutcome]
  · intro s d h; simp [strOrDefault, h]
  · intro d; rfl
  · intro d; rfl

/-- witness for C2 amended: a concrete non-success response without an error
field fails with the default message. -/
theorem C2_fetchMetrics_outcome_witness :
    ((false = false ∨ (⟨false, none, none⟩ : MetricsBody).ok = false ∨
        (⟨false, none, none⟩ : MetricsBody).counts = none) ∧
      fetchMetricsOutcome false ⟨false, none, none⟩ =
        .error (strOrDefault none "Failed to fetch metrics.")) ∧
    (("boom" : String) ≠ "" ∧ strOrDefault (some "boom") "Failed to fetch metrics." = "boom") :=
  ⟨⟨Or.inl rfl, C2_fetchMetrics_outcome.2.1 false ⟨false, none, none⟩ (Or.inl rfl)⟩,
   ⟨by decide, C2_fetchMetrics_outcome.2.2.1 "boom" "Failed to fetch metrics." (by decide)⟩⟩

/-! ## Claim C4 -/

/-- a numeric value is formatted by the post-coercion branch of
`formatValue` unchanged: `Number(q || 0) = q`. -/
theorem formatValue_num (q : ℚ) (fmt : String) :
    formatValue (.num q) fmt = formatValueQ q fmt := by
  have hc : coerceNum (.num q) = some q := by
    unfold coerceNum truthy
    by_cases h : q = 0
    · subst h; simp [toNumber]
    · simp [h, toNumber]
  simp [formatValue, hc]

/-- C4: each animation frame computes `t = min((now - start)/duration, 1)`,
`eased = 1 - (1 - t)^3`, `current = 0 + (end - 0) * eased`, writes the
formatted current value, and reschedules exactly when `t < 1`; consequently
the interpolated value at `t = 1` equals the end value. -/
theorem C4_tick_algorithm :
    (∀ start duration now : ℚ,
      tickT start duration now = min ((now - start) / duration) 1) ∧
    (∀ t : ℚ, easeOutCubic t = 1 - (1 - t) ^ 3) ∧
    (∀ endv eased : ℚ, tickCurrent endv eased = 0 + (endv - 0) * eased) ∧
    (∀ t : ℚ, tickReschedules t = true ↔ t < 1) ∧
    (∀ (start duration endv : ℚ) (fmt : String) (now : ℚ) (rest : List ℚ),
      runFrames start duration (some endv) fmt (now :: rest) =
        (if tickReschedules (tickT start duration now) then
          formatValueQ (tickCurrent endv (easeOutCubic (tickT start duration now))) fmt ::
            runFrames start duration (some endv) fmt rest
         else [formatValueQ (tickCurrent endv (easeOutCubic (tickT start duration now))) fmt])) ∧
    (∀ endv : ℚ, tickCurrent endv (easeOutCubic 1) = endv) ∧
    (∀ start duration now endv : ℚ, duration > 0 → now - start ≥ duration →
      tickT start duration now = 1 ∧
      tickCurrent endv (easeOutCubic (tickT start duration now)) = endv) := by
  refine ⟨fun _ _ _ => rfl, fun _ => rfl, fun _ _ => rfl, ?_, ?_, ?_, ?_⟩
  · intro t; simp [tickReschedules]
  · intro start duration endv fmt now rest
    simp only [runFrames, formatValue_num]
  · intro endv; simp [easeOutCubic, tickCurrent]
  · intro start duration now endv hd hge
    have h1 : tickT start duration now = 1 := by
      unfold tickT
      rw [min_eq_right ((one_le_div hd).2 hge)]
    refine ⟨h1, ?_⟩
    rw [h1]
    simp [easeOutCubic, tickCurrent]

/-- witness for C4: a frame at exactly the duration boundary interpolates to
the end value. -/
theorem C4_tick_algorithm_witness :
    (750 : ℚ) > 0 ∧ (750 : ℚ) - 0 ≥ 750 ∧
    tickT 0 750 750 = 1 ∧
    tickCurrent 5 (easeOutCubic (tickT 0 750 750)) = 5 :=
  ⟨by norm_num, by norm_num,
   (C4_tick_algorithm.2.2.2.2.2.2 0 750 750 5 (by norm_num) (by norm_num)).1,
   (C4_tick_algorithm.2.2.2.2.2.2 0 750 750 5 (by norm_num) (by norm_num)).2⟩

/-! ## Claim C3 -/

/-- `Number(q || 0)` of a number is that number. -/
theorem coerceNum_num (q : ℚ) : coerceNum (.num q) = some q := by
  unfold coerceNum truthy
  by_cases h : q = 0
  · subst h; simp [toNumber]
  · simp [h, toNumber]

/-- `countUpDuration` of the concrete 750 passed by `applyMetrics`. -/
theorem countUpDuration_750 : countUpDuration (some 750) = 750 := by
  simp [countUpDuration]

/-- once some delivered frame time has reached the duration, the `tick` loop
terminates and its last write is the formatted end value. -/
theorem runFrames_complete (start dur endv : ℚ) (fmt : String) (hd : 0 < dur) :
    ∀ frames : List ℚ, (∃ now ∈ frames, dur ≤ now - start) →
    (runFrames start dur (some endv) fmt frames).getLast? =
      some (formatValueQ endv fmt) := by
  intro frames
  induction frames with
  | nil => rintro ⟨now, hmem, -⟩; exact absurd hmem (List.not_mem_nil now)
  | cons now rest ih =>
    rintro ⟨n0, hmem, hge⟩
    by_cases hres : tickReschedules (tickT start dur now) = true
    · have hnot : ¬ dur ≤ now - start := by
        intro hc
        have h1 : tickT start dur now = 1 := by
          unfold tickT
          rw [min_eq_right ((one_le_div hd).2 hc)]
        rw [tickReschedules, h1] at hres
        simp at hres
      have hr : n0 ∈ rest := by
        rcases List.mem_cons.mp hmem with rfl | hr
        · exact absurd hge hnot
        · exact hr
      have hrec := ih ⟨n0, hr, hge⟩
      simp only [runFrames, hres, if_true]
      rcases hrest : runFrames start dur (some endv) fmt rest with - | ⟨b, l⟩
      · rw [hrest] at hrec; simp at hrec
      · rw [hrest] at hrec
        rw [List.getLast?_cons_cons]
        exact hrec
    · have h1 : tickT start dur now = 1 := by
        have hle : tickT start dur now ≤ 1 := min_le_right _ _
        have hge1 : (1 : ℚ) ≤ tickT start dur now := by
          by_contra hlt
          push_neg at hlt
          rw [tickReschedules] at hres
          simp [hlt] at hres
        exact le_antisymm hle hge1
      simp only [runFrames, hres, if_false]
      rw [formatValue_num, h1]
      have : tickCurrent endv (easeOutCubic 1) = endv := by
        simp [easeOutCubic, tickCurrent]
      rw [this]
      rfl

/-- C3: for every KPI element with a recognized data-key, the writes produced
by a successful metrics fetch are those of `countUp` at the looked-up value
and the declared format: under reduced motion the element gets the final
formatted value immediately as its only write, independent of any frames;
otherwise, once the animation frames reach the 750 ms duration, the last
written text equals the formatted target value. -/
theorem C3_kpi_final_text :
    (∀ (pr : Bool) (counts : List (String × ℚ)) (els : List (KpiEl × ℚ × List ℚ)),
      (applyMetrics pr (some counts) els).length = els.length) ∧
    (∀ (pr : Bool) (counts : List (String × ℚ)) (els : List (KpiEl × ℚ × List ℚ))
        (i : ℕ) (e : KpiEl × ℚ × List ℚ),
      els.get? i = some e →
      (applyMetrics pr (some counts) els).get? i =
        some (countUpWrites pr (.num (countsLookup counts e.1.dataKey))
          e.1.dataFormat (some 750) e.2.1 e.2.2)) ∧
    (∀ (v : ℚ) (fmtAttr : Option String) (dur : Option ℚ) (start : ℚ)
        (frames : List ℚ),
      countUpWrites true (.num v) fmtAttr dur start frames =
        [formatValueQ v (countUpFormat fmtAttr)]) ∧
    (∀ (v : ℚ) (fmtAttr : Option String) (start : ℚ) (frames : List ℚ),
      (∃ now ∈ frames, (750 : ℚ) ≤ now - start) →
      (countUpWrites false (.num v) fmtAttr (some 750) start frames).getLast? =
        some (formatValueQ v (countUpFormat fmtAttr))) := by
  refine ⟨?_, ?_, ?_, ?_⟩
  · intro pr counts els; simp [applyMetrics]
  · intro pr counts els i e he
    simp only [applyMetrics, List.get?_map, he]
    rfl
  · intro v fmtAttr dur start frames
    simp only [countUpWrites, if_true, formatValue_num]
  · intro v fmtAttr start frames hex
    simp only [countUpWrites, if_false, coerceNum_num, countUpDuration_750]
    exact runFrames_complete start 750 v (countUpFormat fmtAttr) (by norm_num) frames hex

/-- witness for C3: a one-element run whose single frame lands past the
duration writes the formatted target as its last text. -/
theorem C3_kpi_final_text_witness :
    (∃ now ∈ [(800 : ℚ)], (750 : ℚ) ≤ now - 0) ∧
    (countUpWrites false (.num 5) none (some 750) 0 [800]).getLast? =
      some (formatValueQ 5 (countUpFormat none)) :=
  ⟨⟨800, by simp, by norm_num⟩,
   C3_kpi_final_text.2.2.2 5 none 0 [800] ⟨800, by simp, by norm_num⟩⟩

/-! ## Claim C1 -/

/-- the aborted set only grows. -/
theorem aborted_mono (s : MState) (e : MEvent) :
    ∀ id ∈ s.aborted, id ∈ (stepM s e).1.aborted := by
  intro id hid
  cases e with
  | call =>
    cases hc : s.current <;> simp [stepM, hc, hid]
  | deliver d ok =>
    by_cases hcond : d ∈ s.sent ∧ d ∉ s.delivered
    · simp only [stepM, if_pos hcond]
      by_cases ha : d ∈ s.aborted
      · simp [ha, hid]
      · by_cases hok : ok = true <;> simp [ha, hok, hid]
    · simp [stepM, if_neg hcond, hid]

/-- an invocation of `fetchMetricsOnce` emits no DOM application. -/
theorem call_no_apply (s : MState) (id : ℕ) :
    MAction.applyDom id ∉ (stepM s MEvent.call).2 := by
  cases hc : s.current <;> simp [stepM, hc]

/-- a request that is already aborted is never applied by any later events. -/
theorem no_apply_of_aborted (evs : List MEvent) :
    ∀ (s : MState) (id : ℕ), id ∈ s.aborted →
      MAction.applyDom id ∉ (runM s evs).2 := by
  induction evs with
  | nil => intro s id _; simp [runM]
  | cons e rest ih =>
    intro s id hid
    simp only [runM, List.mem_append, not_or]
    refine ⟨?_, ih _ id (aborted_mono s e id hid)⟩
    cases e with
    | call => exact call_no_apply s id
    | deliver d ok =>
      by_cases hcond : d ∈ s.sent ∧ d ∉ s.delivered
      · simp only [stepM, if_pos hcond]
        by_cases ha : d ∈ s.aborted
        · simp [ha]
        · have hne : id ≠ d := fun h => ha (h ▸ hid)
          by_cases hok : ok = true <;> simp [ha, hok, hne]
      · simp [stepM, if_neg hcond]

/-- invariant: every request ever sent is either the current one or has been
aborted. -/
def InvM (s : MState) : Prop :=
  ∀ id ∈ s.sent, s.current = some id ∨ id ∈ s.aborted

/-- the invariant is preserved by every step. -/
theorem InvM_step (s : MState) (e : MEvent) (h : InvM s) : InvM (stepM s e).1 := by
  cases e with
  | call =>
    intro id hid
    cases hc : s.current with
    | none =>
      simp only [stepM, hc] at hid ⊢
      rcases List.mem_append.mp hid with hold | hnew
      · rcases h id hold with hcur | hab
        · rw [hc] at hcur; cases hcur
        · exact Or.inr hab
      · simp at hnew
        simp [hnew]
    | some t =>
      simp only [stepM, hc] at hid ⊢
      rcases List.mem_append.mp hid with hold | hnew
      · rcases h id hold with hcur | hab
        · rw [hc] at hcur
          injection hcur with hct
          exact Or.inr (by simp [hct])
        · exact Or.inr (by simp [hab])
      · simp at hnew
        simp [hnew]
  | deliver d ok =>
    intro id hid
    by_cases hcond : d ∈ s.sent ∧ d ∉ s.delivered
    · simp only [stepM, if_pos hcond] at hid ⊢
      by_cases ha : d ∈ s.aborted
      · simp only [ha, if_true] at hid ⊢
        exact h id hid
      · by_cases hok : ok = true <;>
          simp only [ha, hok, if_true, if_false, Bool.false_eq_true] at hid ⊢ <;>
          exact h id hid
    · simp only [stepM, if_neg hcond] at hid ⊢
      exact h id hid

/-- the invariant holds in every reachable state. -/
theorem InvM_run (evs : List MEvent) :
    ∀ s : MState, InvM s → InvM (runM s evs).1 := by
  induction evs with
  | nil => intro s h; simpa [runM] using h
  | cons e rest ih =>
    intro s h
    simp only [runM]
    exact ih _ (InvM_step s e h)

/-- a step can apply a request to the DOM only when that request is the one
the current controller belongs to. -/
theorem apply_only_current (s : MState) (e : MEvent) (id : ℕ) (hinv : InvM s)
    (h : MAction.applyDom id ∈ (stepM s e).2) : s.current = some id := by
  cases e with
  | call => exact absurd h (call_no_apply s id)
  | deliver d ok =>
    by_cases hcond : d ∈ s.sent ∧ d ∉ s.delivered
    · simp only [stepM, if_pos hcond] at h
      by_cases ha : d ∈ s.aborted
      · simp [ha] at h
      · by_cases hok : ok = true
        · simp only [ha, hok, if_true, if_false, Bool.false_eq_true] at h
          simp at h
          subst h
          rcases hinv id hcond.1 with hcur | hab
          · exact hcur
          · exact absurd hab ha
        · simp [ha, hok] at h
    · simp [stepM, if_neg hcond] at h

/-- C1: a call of `fetchMetricsOnce` aborts the previously current request
before the new request is sent and sends the new request with caching
disabled (`no-store`); a request that was current when a later call occurred
is never applied to the DOM afterwards; and any request a step applies to
the DOM is the current — most recent — one. -/
theorem C1_metrics_cancellation :
    (∀ (s : MState) (t : ℕ), s.current = some t →
      (stepM s MEvent.call).2 = [MAction.abort t, MAction.send s.nextId true]) ∧
    (∀ s : MState, s.current = none →
      (stepM s MEvent.call).2 = [MAction.send s.nextId true]) ∧
    (∀ (evs1 evs2 : List MEvent) (id : ℕ),
      ((runM initM evs1).1).current = some id →
      MAction.applyDom id ∉ (stepM (runM initM evs1).1 MEvent.call).2 ∧
      MAction.applyDom id ∉
        (runM (stepM (runM initM evs1).1 MEvent.call).1 evs2).2) ∧
    (∀ (evs : List MEvent) (e : MEvent) (id : ℕ),
      MAction.applyDom id ∈ (stepM (runM initM evs).1 e).2 →
      ((runM initM evs).1).current = some id) := by
  refine ⟨?_, ?_, ?_, ?_⟩
  · intro s t hc; simp [stepM, hc]
  · intro s hc; simp [stepM, hc]
  · intro evs1 evs2 id hc
    refine ⟨call_no_apply _ id, ?_⟩
    apply no_apply_of_aborted
    simp [stepM, hc]
  · intro evs e id happ
    have hinv : InvM (runM initM evs).1 := by
      apply InvM_run
      intro id hid
      simp [initM] at hid
    exact apply_only_current _ e id hinv happ

/-- witness for C1: after two calls, request 0 was current at the first call
and superseded by the second; delivering both responses applies only
request 1. -/
theorem C1_metrics_cancellation_witness :
    ((runM initM [MEvent.call]).1.current = some 0 ∧
      MAction.applyDom 0 ∉ (stepM (runM initM [MEvent.call]).1 MEvent.call).2 ∧
      MAction.applyDom 0 ∉
        (runM (stepM (runM initM [MEvent.call]).1 MEvent.call).1
          [MEvent.deliver 0 true, MEvent.deliver 1 true]).2) ∧
    ((runM initM []).1.current = none ∧
      (stepM (runM initM []).1 MEvent.call).2 = [MAction.send 0 true]) :=
  ⟨⟨by decide,
    (C1_metrics_cancellation.2.2.1 [MEvent.call]
      [MEvent.deliver 0 true, MEvent.deliver 1 true] 0 (by decide)).1,
    (C1_metrics_cancellation.2.2.1 [MEvent.call]
      [MEvent.deliver 0 true, MEvent.deliver 1 true] 0 (by decide)).2⟩,
   ⟨by decide, C1_metrics_cancellation.2.1 (runM initM []).1 (by decide)⟩⟩

/-! ## Claim C8 -/

/-- C8: every details fetch failure — a network error, a rejected body parse
on a success status, or a non-success HTTP status such as 500 — reaches the
catch handler: both regions are replaced with an error message built from the
error text, the error is logged, and no chart-render call occurs. -/
theorem C8_details_failure :
    (∀ (env : Env) (msg : String),
      loadDetails env (.netError msg) = errOutcome msg) ∧
    (∀ (env : Env) (e : String),
      loadDetails env (.resp true (.error e)) = errOutcome e) ∧
    (∀ (env : Env) (js : Except String DetailsData),
      loadDetails env (.resp false js) =
        errOutcome (strOrDefault
          (match js with | .ok d => d.error | .error _ => none)
          "Failed to fetch dashboard data.")) ∧
    (∀ msg : String,
      (errOutcome msg).chartHTML =
        "<p class=\"text-danger\">Chart load failed: " ++ msg ++ "</p>" ∧
      (errOutcome msg).activityHTML =
        "<p class=\"text-danger\">Activity load failed: " ++ msg ++ "</p>" ∧
      (errOutcome msg).renderCalls = [] ∧
      (errOutcome msg).logs = ["Dashboard Error: " ++ msg]) := by
  refine ⟨?_, ?_, ?_, ?_⟩
  · intro env msg; rfl
  · intro env e; rfl
  · intro env js; rcases js with e | d <;> rfl
  · intro msg; exact ⟨rfl, rfl, rfl, rfl⟩

/-! ## Claim C9 -/

/-- C9: on a successful details fetch, a non-empty `recent_activities` list
renders the activity card with one list item per record — the item template
carrying the icon, the colored label, the text and the locale-formatted
timestamp — preserving input order; an absent or empty list renders exactly
the single "No recent activities" placeholder and zero list items. -/
theorem C9_activity_rendering :
    (∀ (env : Env) (data : DetailsData) (acts : List Activity),
      data.recent_activities = some acts → acts ≠ [] →
      (loadDetails env (.resp true (.ok data))).activityHTML = activityCardHTML ∧
      (loadDetails env (.resp true (.ok data))).activityItems =
        acts.map (renderActivityItem env) ∧
      (loadDetails env (.resp true (.ok data))).activityItems.length =
        acts.length ∧
      (∀ i : ℕ,
        (loadDetails env (.resp true (.ok data))).activityItems.get? i =
          (acts.get? i).map (renderActivityItem env))) ∧
    (∀ (env : Env) (data : DetailsData),
      data.recent_activities = none ∨ data.recent_activities = some [] →
      (loadDetails env (.resp true (.ok data))).activityHTML =
        noActivitiesHTML ∧
      (loadDetails env (.resp true (.ok data))).activityItems = []) := by
  constructor
  · intro env data acts hsome hne
    have hlen : acts.length > 0 := List.length_pos.mpr hne
    simp only [loadDetails, hsome, if_pos hlen, if_true]
    refine ⟨by trivial, by trivial, by simp, ?_⟩
    intro i
    exact List.get?_map (renderActivityItem env) acts i
  · intro env data h
    rcases h with h | h <;> simp [loadDetails, h]

/-- witness for C9: one concrete activity renders as one item, and the empty
list renders the placeholder. -/
theorem C9_activity_rendering_witness :
    (let env : Env := ⟨fun t => t⟩
     let act : Activity := ⟨"i", "text-success", "Paid", "2024-01-01"⟩
     let data : DetailsData := ⟨1000, 250, [], [], [], [], some [act], none⟩
     data.recent_activities = some [act] ∧ [act] ≠ [] ∧
      (loadDetails env (.resp true (.ok data))).activityItems =
        [renderActivityItem env act]) ∧
    (let env : Env := ⟨fun t => t⟩
     let data0 : DetailsData := ⟨1000, 250, [], [], [], [], some [], none⟩
     (data0.recent_activities = none ∨ data0.recent_activities = some []) ∧
      (loadDetails env (.resp true (.ok data0))).activityHTML =
        noActivitiesHTML) :=
  ⟨⟨rfl, by simp,
    ((C9_activity_rendering.1 ⟨fun t => t⟩
        ⟨1000, 250, [], [], [], [], some [⟨"i", "text-success", "Paid", "2024-01-01"⟩], none⟩
        [⟨"i", "text-success", "Paid", "2024-01-01"⟩] rfl (by simp)).2.1)⟩,
   ⟨Or.inr rfl,
    (C9_activity_rendering.2 ⟨fun t => t⟩
        ⟨1000, 250, [], [], [], [], some [], none⟩ (Or.inr rfl)).1⟩⟩

/-! ## Claim C10 -/

/-- C10: a non-success details response whose body cannot be parsed as JSON
has the parse failure swallowed — the thrown message is the default
"Failed to fetch dashboard data." independently of the parse error text, and
the parse error never reaches the regions or the log. -/
theorem C10_parse_failure_swallowed :
    ∀ (env : Env) (e e2 : String),
      loadDetails env (.resp false (.error e)) =
        errOutcome "Failed to fetch dashboard data." ∧
      loadDetails env (.resp false (.error e)) =
        loadDetails env (.resp false (.error e2)) ∧
      (loadDetails env (.resp false (.error e))).logs =
        ["Dashboard Error: Failed to fetch dashboard data."] := by
  intro env e e2
  exact ⟨rfl, rfl, rfl⟩

end Dashboard
